import Mathlib

/-!
Shallow embedding of the ForkTrace Fork Replay Engine
(src/modules/etherscan-client.js, src/modules/anvil-manager.js,
src/modules/state-diff.js, src/modules/transaction-replayer.js and the
orchestrator runForkTrace), together with theorems settling the frozen
claims about the natural-language specification.

External effects (HTTP responses, the spawned child process, chain state)
are supplied as explicit inputs: each network call's outcome is an entry
of a script list, and chain state is a function from block tag and
address to an account snapshot.
-/

namespace ForkTrace

/- ------------------------------------------------------------------ -/
/- Configuration constants, from src/config/constants.js              -/
/- ------------------------------------------------------------------ -/

def ETHERSCAN_MAX_RETRIES : Nat := 3

def ETHERSCAN_RETRY_DELAY_MS : Nat := 100

/- ------------------------------------------------------------------ -/
/- Error objects.                                                     -/
/- ------------------------------------------------------------------ -/

/-- The `ErrorTypes` enum of src/utils/error-handler.js (found as the
second concatenated document of src/src/utils/cli-prompts.js): the
string tags VALIDATION_ERROR, NETWORK_ERROR, ETHERSCAN_ERROR,
ANVIL_ERROR, REPLAY_ERROR, AI_ERROR, EXPORT_ERROR, SYSTEM_ERROR.
`untyped` additionally models an exception with no `type` field (e.g. a
raw axios transport error), which matches neither string literal that
`_proxyCall` compares against. -/
inductive ErrType
  | validationError
  | networkError
  | etherscanError
  | anvilError
  | replayError
  | aiError
  | exportError
  | systemError
  | untyped
deriving DecidableEq, Repr

/-- The `ForkTraceError` class of src/utils/error-handler.js: the
`message` inherited from `Error` and the `type` tag.  The
`originalError` and `timestamp` fields are never read by the embedded
code and are omitted. -/
structure ForkTraceError where
  type : ErrType
  message : String
deriving DecidableEq, Repr

/-- `createNetworkError` of src/utils/error-handler.js:
`new ForkTraceError(message, ErrorTypes.NETWORK_ERROR, originalError)`.
NETWORK_ERROR is neither of the two tags `_proxyCall` treats as
non-retryable. -/
def createNetworkError (msg : String) : ForkTraceError :=
  { type := ErrType.networkError, message := msg }

/-- `createEtherscanError` of src/utils/error-handler.js:
`new ForkTraceError(message, ErrorTypes.ETHERSCAN_ERROR, originalError)`,
the ETHERSCAN_ERROR tag being the literal that
src/modules/etherscan-client.js compares against. -/
def createEtherscanError (msg : String) : ForkTraceError :=
  { type := ErrType.etherscanError, message := msg }

/-- `createValidationError` of src/utils/error-handler.js:
`new ForkTraceError(message, ErrorTypes.VALIDATION_ERROR, originalError)`,
the VALIDATION_ERROR tag being the literal that
src/modules/etherscan-client.js compares against. -/
def createValidationError (msg : String) : ForkTraceError :=
  { type := ErrType.validationError, message := msg }

/- ------------------------------------------------------------------ -/
/- Case-insensitive "rate limit" test: /rate limit/i.test(msg)        -/
/- ------------------------------------------------------------------ -/

/-- ASCII lower-casing of one character, as the case-insensitive regex
flag treats letters. -/
def lowerChar (c : Char) : Char :=
  if 65 ≤ c.toNat && c.toNat ≤ 90 then Char.ofNat (c.toNat + 32) else c

/-- Does the second list start with the first list? -/
def leadMatch : List Char → List Char → Bool
  | [], _ => true
  | _ :: _, [] => false
  | a :: as, b :: bs => a == b && leadMatch as bs

/-- Does the second list contain the first as a contiguous run? -/
def containsSeq (needle : List Char) : List Char → Bool
  | [] => leadMatch needle []
  | c :: cs => leadMatch needle (c :: cs) || containsSeq needle cs

/-- Embedding of the JavaScript test `/rate limit/i.test(msg)`. -/
def isRateLimitMsg (msg : String) : Bool :=
  containsSeq ("rate limit".data) (msg.data.map lowerChar)

/- ------------------------------------------------------------------ -/
/- EtherscanClient._proxyCall (src/modules/etherscan-client.js)       -/
/- ------------------------------------------------------------------ -/

/-- Outcome of one `this.axiosInstance.get` call, as the environment
produces it: either the awaited call throws (`thrown`), or it yields a
response with an HTTP `status` and a JSON-RPC style body where
`rpcError = some m` models `data.error` being present with message `m`
(`some none` models `data.error` present without a `message` field) and
`result = none` models `data.result == null`. -/
inductive AxiosOutcome
  | thrown (e : ForkTraceError)
  | response (status : Nat) (rpcError : Option (Option String)) (result : Option String)
deriving DecidableEq, Repr

/-- Body of one iteration of `_proxyCall`'s try block (lines 113-130):
HTTP status check, then `data.error`, then `data.result == null`, else
return `data.result`. -/
def processResponse (action : String) : AxiosOutcome → Except ForkTraceError String
  | .thrown e => .error e
  | .response status rpcError result =>
    if status != 200 then
      .error (createNetworkError ("HTTP " ++ Nat.repr status ++ " from Etherscan"))
    else
      match rpcError with
      | some m => .error (createEtherscanError ("RPC error: " ++ m.getD "unknown"))
      | none =>
        match result with
        | none => .error (createEtherscanError
            ("Null result from Etherscan for action " ++ action ++
             " (may be pending or not found)"))
        | some r => .ok r

/-- The non-retriable test of `_proxyCall` (lines 136-140), with the
JavaScript operator precedence `a || (b && c)`:
`err.type === VALIDATION_ERROR || (err.type === ETHERSCAN_ERROR && !/rate limit/i.test(err.message))`. -/
def nonRetriable (e : ForkTraceError) : Bool :=
  e.type == ErrType.validationError ||
    (e.type == ErrType.etherscanError && !(isRateLimitMsg e.message))

/-- The error an attempt produces, if any. -/
def attemptError (action : String) (r : AxiosOutcome) : Option ForkTraceError :=
  match processResponse action r with
  | .ok _ => none
  | .error e => some e

/-- An attempt outcome that fails with an error the retry loop is
willing to retry. -/
def isRetryableFailure (action : String) (r : AxiosOutcome) : Bool :=
  match attemptError action r with
  | none => false
  | some e => !(nonRetriable e)

/-- Final outcome of `_proxyCall`: the returned result, the thrown
error, or `stuck` when the supplied response script is shorter than the
number of requests the loop issues (never reached by the theorems
below). -/
inductive CallResult
  | ok (r : String)
  | err (e : ForkTraceError)
  | stuck
deriving DecidableEq, Repr

/-- One observation of a `_proxyCall` run: its final outcome, the
number of HTTP requests issued, and the list of back-off delays slept
(in milliseconds, in order). -/
structure ProxyTrace where
  result : CallResult
  requests : Nat
  delays : List Nat
deriving DecidableEq, Repr

/-- The `while (attempt < ETHERSCAN_MAX_RETRIES)` loop of `_proxyCall`
(lines 108-152).  `attempt` counts failed attempts so far (it is
incremented only in the catch clause) and `lastError` is the last
caught error.  Each loop iteration consumes the next scripted
`AxiosOutcome`.  On a non-retriable error the loop breaks and the code
after the loop throws `lastError`; when `attempt` reaches the ceiling
the loop exits and throws `lastError` (or the generic
"Exceeded maximum retries" error when no attempt was ever made). -/
def proxyCallGo (action : String) :
    List AxiosOutcome → Nat → Option ForkTraceError → ProxyTrace
  | responses, attempt, lastError =>
    if attempt < ETHERSCAN_MAX_RETRIES then
      match responses with
      | [] => { result := CallResult.stuck, requests := 0, delays := [] }
      | r :: rest =>
        match processResponse action r with
        | .ok v => { result := CallResult.ok v, requests := 1, delays := [] }
        | .error e =>
          if nonRetriable e then
            { result := CallResult.err e, requests := 1, delays := [] }
          else if attempt + 1 < ETHERSCAN_MAX_RETRIES then
            let d := ETHERSCAN_RETRY_DELAY_MS * 2 ^ (attempt + 1 - 1)
            let t := proxyCallGo action rest (attempt + 1) (some e)
            { result := t.result, requests := t.requests + 1, delays := d :: t.delays }
          else
            let t := proxyCallGo action rest (attempt + 1) (some e)
            { result := t.result, requests := t.requests + 1, delays := t.delays }
    else
      { result := CallResult.err (lastError.getD
          (createEtherscanError "Exceeded maximum retries")),
        requests := 0, delays := [] }

/-- Embedding of `EtherscanClient._proxyCall(action, params)` run
against a script of axios outcomes. -/
def proxyCall (action : String) (responses : List AxiosOutcome) : ProxyTrace :=
  proxyCallGo action responses 0 none

/- ------------------------------------------------------------------ -/
/- AnvilManager (src/modules/anvil-manager.js)                        -/
/- ------------------------------------------------------------------ -/

/-- A spawned child process as Node.js exposes it: its pid and the
`killed` property, which Node sets to true as soon as `.kill()` has
successfully sent a signal to the process. -/
structure ProcHandle where
  pid : Nat
  killed : Bool
deriving DecidableEq, Repr

/-- Termination signals `kill` may send. -/
inductive Sig
  | sigint
  | sigkill
deriving DecidableEq, Repr

/-- Effect of `childProcess.kill(signal)` on the handle: Node marks the
handle `killed` once a signal was delivered. -/
def sendSignal (p : ProcHandle) (_s : Sig) : ProcHandle :=
  { p with killed := true }

/-- The fields of an `AnvilManager` instance.  The constructor
initialises `proc := null` and `killedFlag := false` (the source's
`this._killed`); `start` (line 35) assigns the spawned child to a
DIFFERENT field, `this.process`, and never writes `this.proc`. -/
structure AnvilManager where
  port : Nat
  proc : Option ProcHandle
  process : Option ProcHandle
  killedFlag : Bool
deriving DecidableEq, Repr

/-- The constructor `new AnvilManager(port)` (lines 22-26). -/
def mkAnvilManager (port : Nat) : AnvilManager :=
  { port := port, proc := none, process := none, killedFlag := false }

/-- The spawn step of `start` (line 35): `this.process = spawn(...)`.
The environment supplies the handle of the child it spawned. -/
def AnvilManager.spawnPhase (m : AnvilManager) (child : ProcHandle) : AnvilManager :=
  { m with process := some child }

/-- The probe loop of `start` (lines 54-79), scripted by the outcome of
each `fetch` (true = the fetch resolved with `response.ok`; false = it
resolved not-ok or threw).  The loop body reads only `this.port` (in
the fetch URL) — it consults neither `this.proc`, `this.process` nor
`this._killed` — so the result depends only on the probe script.  A
script shorter than the remaining budget stands for probes that all
fail. -/
def probeLoopGo : List Bool → Nat → Bool
  | _, 0 => false
  | [], _ + 1 => false
  | ok :: rest, n + 1 => if ok then true else probeLoopGo rest n

/-- `maxAttempts = 20` from line 54. -/
def ANVIL_PROBE_MAX_ATTEMPTS : Nat := 20

/-- The probe phase of `AnvilManager.start`: true means `start` returns
successfully, false means it throws the network error of line 81. -/
def AnvilManager.startProbeLoop (_m : AnvilManager) (probes : List Bool) : Bool :=
  probeLoopGo probes ANVIL_PROBE_MAX_ATTEMPTS

/-- Embedding of `AnvilManager.kill(force)` (lines 88-122), returning
the updated manager and the list of signals actually sent to the child.
It reads `this.proc` — not `this.process` — and returns at once when
that field is null or `this._killed` is already set.  Otherwise it
marks `_killed`, sends SIGINT, and (non-force path) polls
`this.proc.killed` until the grace deadline, escalating to SIGKILL only
if that flag is still false; since Node sets `killed` as soon as the
SIGINT was delivered, the poll exits immediately on the first check. -/
def AnvilManager.kill (m : AnvilManager) (force : Bool) : AnvilManager × List Sig :=
  match m.proc with
  | none => (m, [])
  | some p =>
    if m.killedFlag then (m, [])
    else
      let p1 := sendSignal p Sig.sigint
      if force then
        let p2 := sendSignal p1 Sig.sigkill
        ({ m with proc := some p2, killedFlag := true }, [Sig.sigint, Sig.sigkill])
      else if p1.killed then
        ({ m with proc := some p1, killedFlag := true }, [Sig.sigint])
      else
        let p2 := sendSignal p1 Sig.sigkill
        ({ m with proc := some p2, killedFlag := true }, [Sig.sigint, Sig.sigkill])

/-- `AnvilManager.isRunning` (lines 84-86):
`!!(this.proc && !this.proc.killed && !this._killed)`. -/
def AnvilManager.isRunning (m : AnvilManager) : Bool :=
  match m.proc with
  | none => false
  | some p => !p.killed && !m.killedFlag

/- ------------------------------------------------------------------ -/
/- TransactionReplayer.replayTransaction                              -/
/- (src/modules/transaction-replayer.js)                              -/
/- ------------------------------------------------------------------ -/

/-- The original transaction as reconstructed from the fork's own view
(`this.provider.getTransaction(txHash)`): the five fields the code
reads.  Values are kept as the strings/quantities the provider hands
back. -/
structure OriginalTx where
  toAddr : Option String
  value : String
  data : String
  gasLimit : String
  gasPrice : String
deriving DecidableEq, Repr

/-- A caller-supplied `modifications` object.  `none` models the key
being absent; `some v` models the key being present with value `v`.
The object may carry `from` and `nonce` keys (fields `fromAddr` and
`nonce` here, since `from` is reserved in Lean). -/
structure TxFields where
  toAddr : Option String := none
  value : Option String := none
  data : Option String := none
  gasLimit : Option String := none
  gasPrice : Option String := none
  fromAddr : Option String := none
  nonce : Option Nat := none
deriving DecidableEq, Repr

/-- The transaction object handed to `wallet.sendTransaction`: the five
reconstructed fields, plus the `from` and `nonce` keys which are ONLY
present if the spread of `modifications` put them there. -/
structure SubmittedTx where
  toAddr : Option String
  value : String
  data : String
  gasLimit : String
  gasPrice : String
  fromAddr : Option String
  nonce : Option Nat
deriving DecidableEq, Repr

/-- The `modifiedTx` object literal of `replayTransaction`
(lines 247-256): base fields `{to, value, data, gasLimit, gasPrice}`
from the reconstructed original, then `...modifications` spread last,
so every key present in `modifications` — including `from` and
`nonce` — overrides or extends the base object. -/
def modifiedTx (originalTx : OriginalTx) (modifications : TxFields) : SubmittedTx :=
  { toAddr := match modifications.toAddr with
      | some t => some t
      | none => originalTx.toAddr
    value := modifications.value.getD originalTx.value
    data := modifications.data.getD originalTx.data
    gasLimit := modifications.gasLimit.getD originalTx.gasLimit
    gasPrice := modifications.gasPrice.getD originalTx.gasPrice
    fromAddr := modifications.fromAddr
    nonce := modifications.nonce }

/-- A transaction receipt with the fields `replayTransaction` reads. -/
structure Receipt where
  status : Nat
  gasUsed : Option Nat
  logs : List String
  hash : String
  blockNumber : Nat
deriving DecidableEq, Repr

/-- What `wallet.sendTransaction` + `txResponse.wait()` produce, as the
environment determines it: the transaction is included and a receipt
comes back (a reverted-but-included transaction has `receipt.status`
0); or the awaited call rejects with an error that carries a receipt
(`error.receipt`, `error.reason`, `error.shortMessage`); or it rejects
with an error carrying no receipt. -/
inductive SubmissionResult
  | included (receipt : Receipt)
  | rejectedWithReceipt (receipt : Receipt) (reason : Option String) (shortMessage : String)
  | rejectedNoReceipt (message : String)
deriving DecidableEq, Repr

/-- True exactly for a rejection that carries no receipt. -/
def SubmissionResult.isNoReceipt : SubmissionResult → Bool
  | .rejectedNoReceipt _ => true
  | _ => false

/-- The normalized replay result object (lines 268-275 and 281-289). -/
structure ReplayOutcome where
  status : String
  gasUsed : Option String
  logs : List String
  transactionHash : String
  blockNumber : Nat
  revertReason : Option String
  errField : Option String
deriving DecidableEq, Repr

/-- Embedding of `TransactionReplayer.replayTransaction` from the
submission point on (lines 261-293): build the outcome from the receipt
on inclusion; in the catch clause, a rejection whose error carries a
receipt is normalized to a failed outcome
(`revertReason = error.reason || 'Transaction execution reverted'`),
and any other error is re-thrown. -/
def replayTransaction (originalTx : OriginalTx) (modifications : TxFields)
    (submit : SubmittedTx → SubmissionResult) : Except String ReplayOutcome :=
  match submit (modifiedTx originalTx modifications) with
  | .included r =>
    .ok { status := if r.status == 1 then "success" else "failed"
          gasUsed := r.gasUsed.map Nat.repr
          logs := r.logs
          transactionHash := r.hash
          blockNumber := r.blockNumber
          revertReason := if r.status == 0 then some "Transaction reverted" else none
          errField := none }
  | .rejectedWithReceipt r reason shortMessage =>
    .ok { status := "failed"
          gasUsed := r.gasUsed.map Nat.repr
          logs := r.logs
          transactionHash := r.hash
          blockNumber := r.blockNumber
          revertReason := some (reason.getD "Transaction execution reverted")
          errField := some shortMessage }
  | .rejectedNoReceipt msg => .error msg

/- ------------------------------------------------------------------ -/
/- StateDiff (src/modules/state-diff.js)                              -/
/- ------------------------------------------------------------------ -/

/-- An account snapshot as `#getAccountSnapshot` builds it.  The source
serialises the balance as a decimal string (`bal.toString()`) and
`diff` parses it back with `BigInt(...)`; as that round-trip is the
identity on the non-negative chain balance, the balance is carried here
directly as a natural number. -/
structure AccountSnapshot where
  address : String
  balance : Nat
  nonce : Nat
  codeHash : String
  codeSize : Nat
deriving DecidableEq, Repr

/-- One entry of the `diff` result map (lines 56-62). -/
structure AccountDiff where
  before : AccountSnapshot
  after : AccountSnapshot
  balanceChange : Int
  nonceChange : Int
  codeChanged : Bool
deriving DecidableEq, Repr

/-- Chain state as the provider exposes it: block tag and address to
the snapshot `#getAccountSnapshot` would assemble there. -/
def ChainState := Nat → String → AccountSnapshot

/-- `StateDiff.captureState(blockTag, addresses)` (lines 20-28): one
snapshot per address, keyed by the snapshot's `address` field (which
`#getAccountSnapshot` sets to the queried address). -/
def captureState (state : ChainState) (blockTag : Nat) (addresses : List String) :
    List (String × AccountSnapshot) :=
  addresses.map (fun addr => ((state blockTag addr).address, state blockTag addr))

/-- The per-address record `diff` builds (lines 56-62):
`balanceChange = BigInt(a.balance) - BigInt(b.balance)` as a signed
arbitrary-precision integer, `nonceChange = a.nonce - b.nonce`,
`codeChanged = a.codeHash !== b.codeHash`. -/
def diffAccount (b a : AccountSnapshot) : AccountDiff :=
  { before := b
    after := a
    balanceChange := (a.balance : Int) - (b.balance : Int)
    nonceChange := (a.nonce : Int) - (b.nonce : Int)
    codeChanged := a.codeHash != b.codeHash }

/-- `StateDiff.diff(fromBlockTag, toBlockTag, addresses)` (lines
45-65): capture both heights, then for each requested address look up
its before/after snapshots and build the diff record.  Since
`#getAccountSnapshot` keys each snapshot by the queried address, the
lookup `before[addr]` is exactly `state fromTag addr`. -/
def StateDiff.diff (state : ChainState) (fromBlockTag toBlockTag : Nat)
    (addresses : List String) : List (String × AccountDiff) :=
  addresses.map (fun addr =>
    (addr, diffAccount (state fromBlockTag addr) (state toBlockTag addr)))

/- ------------------------------------------------------------------ -/
/- Orchestrator runForkTrace (src/index.js)                           -/
/- ------------------------------------------------------------------ -/

/-- The parts of `txData` the orchestrator's fork/diff steps read:
`txData.transaction.from`, `txData.transaction.to` (null for a contract
creation) and the decimal `txData.blockNumber`. -/
structure TxData where
  fromAddr : String
  toAddr : Option String
  blockNumber : Nat
deriving DecidableEq, Repr

/-- What the orchestrator computes in steps 2 and 5: the fork height
(`const forkBlock = Number(txData.blockNumber) - 1`, line 54) and the
diff call
`stateDiff.diff(forkBlock, forkBlock + 1, [from, to].filter(Boolean))`
(lines 92-95).  `filter(Boolean)` drops the null recipient; addresses
are nonempty hex strings, so no other entry is falsy. -/
structure OrchestrationTrace where
  forkBlock : Nat
  diffFromTag : Nat
  diffToTag : Nat
  stateChanges : List (String × AccountDiff)
deriving DecidableEq, Repr

/-- The fork-height and state-diff phase of `runForkTrace`. -/
def runForkTraceDiffPhase (state : ChainState) (txData : TxData) : OrchestrationTrace :=
  let forkBlock := txData.blockNumber - 1
  { forkBlock := forkBlock
    diffFromTag := forkBlock
    diffToTag := forkBlock + 1
    stateChanges := StateDiff.diff state forkBlock (forkBlock + 1)
      (([some txData.fromAddr, txData.toAddr]).filterMap id) }

/- ------------------------------------------------------------------ -/
/- Helper lemmas about the retry loop                                 -/
/- ------------------------------------------------------------------ -/

lemma attemptError_eq_some {action : String} {r : AxiosOutcome} {e : ForkTraceError}
    (h : attemptError action r = some e) : processResponse action r = .error e := by
  unfold attemptError at h
  revert h
  cases hp : processResponse action r with
  | ok v => intro h; cases h
  | error e' => intro h; obtain rfl := Option.some.inj h; rfl

lemma retryable_spec {action : String} {r : AxiosOutcome}
    (h : isRetryableFailure action r = true) :
    ∃ e, processResponse action r = .error e ∧ nonRetriable e = false := by
  unfold isRetryableFailure attemptError at h
  revert h
  cases hp : processResponse action r with
  | ok v => intro h; simp at h
  | error e =>
    intro h
    simp only [Bool.not_eq_true'] at h
    exact ⟨e, rfl, h⟩

lemma proxyCallGo_exit {action : String} {responses : List AxiosOutcome}
    {attempt : Nat} {lastError : Option ForkTraceError}
    (hge : ¬ attempt < ETHERSCAN_MAX_RETRIES) :
    proxyCallGo action responses attempt lastError =
      { result := CallResult.err
          (lastError.getD (createEtherscanError "Exceeded maximum retries"))
        requests := 0, delays := [] } := by
  conv_lhs => rw [proxyCallGo.eq_def]
  simp [hge]

lemma proxyCallGo_cons_ok {action : String} {r : AxiosOutcome} {v : String}
    {rest : List AxiosOutcome} {attempt : Nat} {lastError : Option ForkTraceError}
    (hp : processResponse action r = .ok v)
    (hlt : attempt < ETHERSCAN_MAX_RETRIES) :
    proxyCallGo action (r :: rest) attempt lastError =
      { result := CallResult.ok v, requests := 1, delays := [] } := by
  conv_lhs => rw [proxyCallGo.eq_def]
  simp [hp, hlt]

lemma proxyCallGo_cons_break {action : String} {r : AxiosOutcome} {e : ForkTraceError}
    {rest : List AxiosOutcome} {attempt : Nat} {lastError : Option ForkTraceError}
    (hp : processResponse action r = .error e)
    (hn : nonRetriable e = true)
    (hlt : attempt < ETHERSCAN_MAX_RETRIES) :
    proxyCallGo action (r :: rest) attempt lastError =
      { result := CallResult.err e, requests := 1, delays := [] } := by
  conv_lhs => rw [proxyCallGo.eq_def]
  simp [hp, hn, hlt]

lemma proxyCallGo_cons_retry {action : String} {r : AxiosOutcome} {e : ForkTraceError}
    {rest : List AxiosOutcome} {attempt : Nat} {lastError : Option ForkTraceError}
    (hp : processResponse action r = .error e)
    (hn : nonRetriable e = false)
    (hlt2 : attempt + 1 < ETHERSCAN_MAX_RETRIES) :
    proxyCallGo action (r :: rest) attempt lastError =
      { result := (proxyCallGo action rest (attempt + 1) (some e)).result
        requests := (proxyCallGo action rest (attempt + 1) (some e)).requests + 1
        delays := ETHERSCAN_RETRY_DELAY_MS * 2 ^ attempt ::
          (proxyCallGo action rest (attempt + 1) (some e)).delays } := by
  have hlt : attempt < ETHERSCAN_MAX_RETRIES := Nat.lt_of_succ_lt hlt2
  conv_lhs => rw [proxyCallGo.eq_def]
  simp [hp, hn, hlt, hlt2]

lemma proxyCallGo_cons_last {action : String} {r : AxiosOutcome} {e : ForkTraceError}
    {rest : List AxiosOutcome} {attempt : Nat} {lastError : Option ForkTraceError}
    (hp : processResponse action r = .error e)
    (hn : nonRetriable e = false)
    (hlt : attempt < ETHERSCAN_MAX_RETRIES)
    (hge : ¬ attempt + 1 < ETHERSCAN_MAX_RETRIES) :
    proxyCallGo action (r :: rest) attempt lastError =
      { result := CallResult.err e, requests := 1, delays := [] } := by
  conv_lhs => rw [proxyCallGo.eq_def]
  simp [hp, hn, hlt, hge, proxyCallGo_exit hge]

/- ------------------------------------------------------------------ -/
/- Claim theorems                                                     -/
/- ------------------------------------------------------------------ -/

/-- C6: for a sequence of retryable indexing-service failures (HTTP
status not 200, or an explicit rate-limit error, both of which fail the
non-retriable test), `_proxyCall` makes exactly
`min(N, ETHERSCAN_MAX_RETRIES)` requests (here the failure supply `N ≥ 3`
is capped at the ceiling 3), the delay before each retry is
`ETHERSCAN_RETRY_DELAY_MS * 2 ^ (attemptIndex - 1)` — hence strictly
increasing — and once all attempts fail the last observed error is the
one thrown, never a generic timeout.  The third conjunct shows the
`min` for a shorter failure supply: two retryable failures followed by
a success make exactly 3 requests with the same two delays. -/
theorem C6_retry_backoff (action : String) (r0 r1 r2 : AxiosOutcome)
    (rest : List AxiosOutcome) (e2 : ForkTraceError) (v : String)
    (h0 : isRetryableFailure action r0 = true)
    (h1 : isRetryableFailure action r1 = true)
    (h2 : isRetryableFailure action r2 = true)
    (he2 : attemptError action r2 = some e2) :
    proxyCall action (r0 :: r1 :: r2 :: rest) =
      { result := CallResult.err e2
        requests := min (r0 :: r1 :: r2 :: rest).length ETHERSCAN_MAX_RETRIES
        delays := [ETHERSCAN_RETRY_DELAY_MS * 2 ^ 0, ETHERSCAN_RETRY_DELAY_MS * 2 ^ 1] }
    ∧ ETHERSCAN_RETRY_DELAY_MS * 2 ^ 0 < ETHERSCAN_RETRY_DELAY_MS * 2 ^ 1
    ∧ proxyCall action (r0 :: r1 :: AxiosOutcome.response 200 none (some v) :: rest) =
      { result := CallResult.ok v, requests := 3, delays := [100, 200] } := by
  obtain ⟨e0, hp0, hn0⟩ := retryable_spec h0
  obtain ⟨e1, hp1, hn1⟩ := retryable_spec h1
  obtain ⟨e2x, hp2, hn2⟩ := retryable_spec h2
  have hp2x := attemptError_eq_some he2
  rw [hp2] at hp2x
  obtain rfl := (Except.error.inj hp2x)
  refine ⟨?_, by decide, ?_⟩
  · unfold proxyCall
    rw [proxyCallGo_cons_retry hp0 hn0 (by decide),
        proxyCallGo_cons_retry hp1 hn1 (by decide),
        proxyCallGo_cons_last hp2 hn2 (by decide) (by decide)]
    simp [ETHERSCAN_RETRY_DELAY_MS, ETHERSCAN_MAX_RETRIES, ProxyTrace.mk.injEq]
    try omega
  · unfold proxyCall
    rw [proxyCallGo_cons_retry hp0 hn0 (by decide)]
    rw [proxyCallGo_cons_retry hp1 hn1 (by decide)]
    rw [proxyCallGo_cons_ok
          (show processResponse action (AxiosOutcome.response 200 none (some v)) = .ok v from rfl)
          (by decide)]
    try rfl

/-- A retryable failure: HTTP 500, a transport-level network error. -/
def C6r : AxiosOutcome := AxiosOutcome.response 500 none none

/-- The error HTTP 500 produces in `_proxyCall`. -/
def C6e : ForkTraceError := createNetworkError "HTTP 500 from Etherscan"

/-- C6 witness: three HTTP 500 responses make exactly three requests
with back-off delays 100 ms and 200 ms and surface the HTTP 500 error;
two HTTP 500 responses followed by a success return the result after
three requests and the same two delays. -/
theorem C6_retry_backoff_witness :
    (isRetryableFailure "eth_getBlockByNumber" C6r = true
      ∧ attemptError "eth_getBlockByNumber" C6r = some C6e)
    ∧ (proxyCall "eth_getBlockByNumber" (C6r :: C6r :: C6r :: []) =
        { result := CallResult.err C6e
          requests := min (C6r :: C6r :: C6r :: ([] : List AxiosOutcome)).length
            ETHERSCAN_MAX_RETRIES
          delays := [ETHERSCAN_RETRY_DELAY_MS * 2 ^ 0, ETHERSCAN_RETRY_DELAY_MS * 2 ^ 1] }
      ∧ ETHERSCAN_RETRY_DELAY_MS * 2 ^ 0 < ETHERSCAN_RETRY_DELAY_MS * 2 ^ 1
      ∧ proxyCall "eth_getBlockByNumber"
          (C6r :: C6r :: AxiosOutcome.response 200 none (some "0xres") :: []) =
        { result := CallResult.ok "0xres", requests := 3, delays := [100, 200] }) :=
  ⟨⟨rfl, rfl⟩,
   C6_retry_backoff "eth_getBlockByNumber" C6r C6r C6r [] C6e "0xres" rfl rfl rfl rfl⟩

/-- C7: a non-retryable failure — a validation error, or an
ETHERSCAN_ERROR whose message is not a rate-limit message — makes
exactly one attempt: `_proxyCall` aborts with that error after a single
request, with no back-off delay. -/
theorem C7_nonretryable_single_attempt (action : String) (r : AxiosOutcome)
    (rest : List AxiosOutcome) (e : ForkTraceError)
    (he : attemptError action r = some e) (hn : nonRetriable e = true) :
    proxyCall action (r :: rest) =
      { result := CallResult.err e, requests := 1, delays := [] } := by
  have hp := attemptError_eq_some he
  exact proxyCallGo_cons_break hp hn (by decide)

/-- The non-rate-limit semantic error produced by a null receipt result. -/
def C7e : ForkTraceError := createEtherscanError
  "Null result from Etherscan for action eth_getTransactionReceipt (may be pending or not found)"

/-- C7 witness: a 200 response whose body has a null result yields a
non-rate-limit ETHERSCAN_ERROR; `_proxyCall` stops after that single
request with no delays. -/
theorem C7_nonretryable_single_attempt_witness :
    (attemptError "eth_getTransactionReceipt" (AxiosOutcome.response 200 none none) = some C7e
      ∧ nonRetriable C7e = true)
    ∧ proxyCall "eth_getTransactionReceipt" (AxiosOutcome.response 200 none none :: []) =
        { result := CallResult.err C7e, requests := 1, delays := [] } :=
  ⟨⟨rfl, rfl⟩,
   C7_nonretryable_single_attempt "eth_getTransactionReceipt"
     (AxiosOutcome.response 200 none none) [] C7e rfl rfl⟩

/-- The claim's end-to-end null-result script: `result: null` on the
first two attempts, a valid result on the third. -/
def C3script : List AxiosOutcome :=
  [AxiosOutcome.response 200 none none, AxiosOutcome.response 200 none none,
   AxiosOutcome.response 200 none (some "0x1")]

/-- C3 counterexample: on the script with null results on the first two
attempts and a valid result on the third, `_proxyCall` does NOT return
the valid result after two back-off delays; the null-result error is an
ETHERSCAN_ERROR without a rate-limit message, so the non-retriable
check breaks the loop after the very first request and the error
surfaces immediately. -/
theorem C3_null_result_not_retried :
    proxyCall "eth_getTransactionByHash" C3script =
      { result := CallResult.err (createEtherscanError
          "Null result from Etherscan for action eth_getTransactionByHash (may be pending or not found)")
        requests := 1, delays := [] }
    ∧ (proxyCall "eth_getTransactionByHash" C3script).result ≠ CallResult.ok "0x1"
    ∧ (proxyCall "eth_getTransactionByHash" C3script).delays ≠ [100, 200] := by
  refine ⟨rfl, by decide, by decide⟩

/-- C3 amended: a null result after a successful HTTP response is
treated as NON-retryable by each of the three indexing-service queries:
`_proxyCall` makes exactly one attempt, incurs no back-off delay, and
surfaces the not-found-style error immediately, whatever responses
would have followed. -/
theorem C3_null_result_aborts_immediately (rest : List AxiosOutcome) :
    proxyCall "eth_getTransactionByHash" (AxiosOutcome.response 200 none none :: rest) =
      { result := CallResult.err (createEtherscanError
          "Null result from Etherscan for action eth_getTransactionByHash (may be pending or not found)")
        requests := 1, delays := [] }
    ∧ proxyCall "eth_getTransactionReceipt" (AxiosOutcome.response 200 none none :: rest) =
      { result := CallResult.err (createEtherscanError
          "Null result from Etherscan for action eth_getTransactionReceipt (may be pending or not found)")
        requests := 1, delays := [] }
    ∧ proxyCall "eth_getBlockByNumber" (AxiosOutcome.response 200 none none :: rest) =
      { result := CallResult.err (createEtherscanError
          "Null result from Etherscan for action eth_getBlockByNumber (may be pending or not found)")
        requests := 1, delays := [] } :=
  ⟨proxyCallGo_cons_break rfl rfl (by decide),
   proxyCallGo_cons_break rfl rfl (by decide),
   proxyCallGo_cons_break rfl rfl (by decide)⟩

/-- C5: `replayTransaction` raises an error if and only if the
submission rejects without a receipt.  An included-but-reverted
transaction (receipt status 0) and a rejection that carries a receipt
both return a normal `ReplayOutcome` with status "failed" and a
non-null `revertReason`; a rejection without a receipt propagates the
error unchanged; and across all submission outcomes, the call returns
`ok` exactly when the outcome is not a no-receipt rejection. -/
theorem C5_error_iff_no_receipt :
    (∀ (o : OriginalTx) (m : TxFields) (g : Option Nat) (l : List String)
        (hsh : String) (bn : Nat),
      replayTransaction o m (fun _ => SubmissionResult.included
          { status := 0, gasUsed := g, logs := l, hash := hsh, blockNumber := bn }) =
        Except.ok { status := "failed"
                    gasUsed := g.map Nat.repr
                    logs := l
                    transactionHash := hsh
                    blockNumber := bn
                    revertReason := some "Transaction reverted"
                    errField := none })
    ∧ (∀ (o : OriginalTx) (m : TxFields) (r : Receipt) (reason : Option String)
        (sm : String),
      replayTransaction o m (fun _ => SubmissionResult.rejectedWithReceipt r reason sm) =
        Except.ok { status := "failed"
                    gasUsed := r.gasUsed.map Nat.repr
                    logs := r.logs
                    transactionHash := r.hash
                    blockNumber := r.blockNumber
                    revertReason := some (reason.getD "Transaction execution reverted")
                    errField := some sm })
    ∧ (∀ (o : OriginalTx) (m : TxFields) (msg : String),
      replayTransaction o m (fun _ => SubmissionResult.rejectedNoReceipt msg) =
        Except.error msg)
    ∧ (∀ (o : OriginalTx) (m : TxFields) (res : SubmissionResult),
      (replayTransaction o m (fun _ => res)).isOk = !res.isNoReceipt) := by
  refine ⟨fun o m g l hsh bn => rfl, fun o m r reason sm => rfl,
    fun o m msg => rfl, ?_⟩
  intro o m res
  cases res <;> rfl

/-- C8: every entry of the `diff` result has
`balanceChange = after.balance - before.balance` computed in the signed
arbitrary-precision integers, `nonceChange = after.nonce - before.nonce`,
and `codeChanged` true exactly when the two snapshots' code hashes
differ; the before/after snapshots are the captures of that address at
the two requested heights. -/
theorem C8_diff_arithmetic (state : ChainState) (fromBlockTag toBlockTag : Nat)
    (addresses : List String) (addr : String) (d : AccountDiff)
    (hmem : (addr, d) ∈ StateDiff.diff state fromBlockTag toBlockTag addresses) :
    d.balanceChange = (d.after.balance : Int) - (d.before.balance : Int)
    ∧ d.nonceChange = (d.after.nonce : Int) - (d.before.nonce : Int)
    ∧ (d.codeChanged = true ↔ d.after.codeHash ≠ d.before.codeHash)
    ∧ d.before = state fromBlockTag addr ∧ d.after = state toBlockTag addr := by
  unfold StateDiff.diff at hmem
  rcases List.mem_map.mp hmem with ⟨a, ha, heq⟩
  have h1 : a = addr := congrArg Prod.fst heq
  have h2 : diffAccount (state fromBlockTag a) (state toBlockTag a) = d :=
    congrArg Prod.snd heq
  subst h1
  subst h2
  refine ⟨rfl, rfl, ?_, rfl, rfl⟩
  simp [diffAccount, bne_iff_ne]

/-- A concrete two-height chain state whose balances exceed 64-bit
range and decrease between the heights. -/
def wState : ChainState := fun t _a =>
  if t = 0 then
    { address := "0xaaa", balance := 2 ^ 70, nonce := 5, codeHash := "0x", codeSize := 0 }
  else
    { address := "0xaaa", balance := 1, nonce := 7, codeHash := "0xdead", codeSize := 2 }

/-- The diff record `diff 0 1 ["0xaaa"]` produces on `wState`. -/
def wDiff : AccountDiff := diffAccount (wState 0 "0xaaa") (wState 1 "0xaaa")

/-- C8 witness: on a state whose balance drops from `2 ^ 70` to 1 the
diff entry satisfies the exact signed arithmetic — in particular the
balance delta is the negative, beyond-64-bit value `1 - 2 ^ 70`. -/
theorem C8_diff_arithmetic_witness :
    (("0xaaa", wDiff) ∈ StateDiff.diff wState 0 1 ["0xaaa"])
    ∧ (wDiff.balanceChange = (wDiff.after.balance : Int) - (wDiff.before.balance : Int)
      ∧ wDiff.nonceChange = (wDiff.after.nonce : Int) - (wDiff.before.nonce : Int)
      ∧ (wDiff.codeChanged = true ↔ wDiff.after.codeHash ≠ wDiff.before.codeHash)
      ∧ wDiff.before = wState 0 "0xaaa" ∧ wDiff.after = wState 1 "0xaaa") :=
  ⟨by decide, C8_diff_arithmetic wState 0 1 ["0xaaa"] "0xaaa" wDiff (by decide)⟩

/-- C9: for a transaction mined at block `N ≥ 1` with a non-null
recipient, the orchestrator starts the fork at `N - 1` and diffs
heights `N - 1` and `N` over exactly the sender and the recipient: the
key list of the diff map is `[sender, recipient]` and nothing else. -/
theorem C9_fork_and_diff_heights (state : ChainState) (txData : TxData)
    (recipient : String)
    (hbn : 1 ≤ txData.blockNumber) (ht : txData.toAddr = some recipient) :
    (runForkTraceDiffPhase state txData).forkBlock = txData.blockNumber - 1
    ∧ (runForkTraceDiffPhase state txData).diffFromTag = txData.blockNumber - 1
    ∧ (runForkTraceDiffPhase state txData).diffToTag = txData.blockNumber
    ∧ (runForkTraceDiffPhase state txData).stateChanges.map Prod.fst
        = [txData.fromAddr, recipient] := by
  refine ⟨rfl, rfl, ?_, ?_⟩
  · show txData.blockNumber - 1 + 1 = txData.blockNumber
    omega
  · simp [runForkTraceDiffPhase, StateDiff.diff, ht, List.map_map]

/-- An arbitrary constant chain state for the C9 witness. -/
def wState9 : ChainState := fun _t _a =>
  { address := "0x", balance := 0, nonce := 0, codeHash := "0x", codeSize := 0 }

/-- The claim's end-to-end transaction: mined at block 100 with a
sender and a recipient. -/
def wTxData9 : TxData :=
  { fromAddr := "0xsender", toAddr := some "0xrecipient", blockNumber := 100 }

/-- C9 witness: the block-100 transaction forks at 99, diffs heights 99
and 100, and the diff keys are exactly the sender and recipient. -/
theorem C9_fork_and_diff_heights_witness :
    (1 ≤ wTxData9.blockNumber ∧ wTxData9.toAddr = some "0xrecipient")
    ∧ ((runForkTraceDiffPhase wState9 wTxData9).forkBlock = wTxData9.blockNumber - 1
      ∧ (runForkTraceDiffPhase wState9 wTxData9).diffFromTag = wTxData9.blockNumber - 1
      ∧ (runForkTraceDiffPhase wState9 wTxData9).diffToTag = wTxData9.blockNumber
      ∧ (runForkTraceDiffPhase wState9 wTxData9).stateChanges.map Prod.fst
          = [wTxData9.fromAddr, "0xrecipient"]) :=
  ⟨⟨by decide, rfl⟩,
   C9_fork_and_diff_heights wState9 wTxData9 "0xrecipient" (by decide) rfl⟩

/-- C10: for a contract-creation transaction (null recipient) the
orchestrator's `filter(Boolean)` drops the null entry before the diff
request, so the diff map's keys are exactly the sender — the null
recipient never appears. -/
theorem C10_contract_creation_single_address (state : ChainState) (txData : TxData)
    (ht : txData.toAddr = none) :
    (runForkTraceDiffPhase state txData).stateChanges.map Prod.fst
      = [txData.fromAddr] := by
  simp [runForkTraceDiffPhase, StateDiff.diff, ht, List.map_map]

/-- A contract-creation transaction: null recipient. -/
def wTxData10 : TxData :=
  { fromAddr := "0xcreator", toAddr := none, blockNumber := 100 }

/-- C10 witness: with a null recipient the diff keys are exactly the
sender. -/
theorem C10_contract_creation_single_address_witness :
    wTxData10.toAddr = none
    ∧ (runForkTraceDiffPhase wState9 wTxData10).stateChanges.map Prod.fst
        = [wTxData10.fromAddr] :=
  ⟨rfl, C10_contract_creation_single_address wState9 wTxData10 rfl⟩

/-- The child process spawned by `start` in the C1 run. -/
def anvilChild1 : ProcHandle := { pid := 77, killed := false }

/-- C1, evaluated at the failing input: after `start` has spawned the
fork process (stored in `this.process`), `kill()` returns immediately
having sent NO signal — neither graceful nor forceful — because it
checks `this.proc`, which the constructor set to null and `start` never
writes; the spawned child remains un-signalled (`killed = false`) and a
residual process is left running.  `isRunning()` is false throughout
for the same reason. -/
theorem C1_kill_after_start_sends_no_signal :
    ((mkAnvilManager 9000).spawnPhase anvilChild1).kill false
        = ((mkAnvilManager 9000).spawnPhase anvilChild1, [])
    ∧ ((mkAnvilManager 9000).spawnPhase anvilChild1).kill true
        = ((mkAnvilManager 9000).spawnPhase anvilChild1, [])
    ∧ ((mkAnvilManager 9000).spawnPhase anvilChild1).process = some anvilChild1
    ∧ anvilChild1.killed = false
    ∧ ((mkAnvilManager 9000).spawnPhase anvilChild1).proc = none
    ∧ ((mkAnvilManager 9000).spawnPhase anvilChild1).isRunning = false := by
  decide

/-- The child process spawned by `start` in the C2 run. -/
def anvilChild2 : ProcHandle := { pid := 1, killed := false }

/-- C2 counterexample: `kill()` invoked while `start`'s probe loop is
polling leaves the manager state unchanged and sends no signal, and the
probe loop then reports success on the next OK probe (the fork process
was never signalled, so its endpoint still answers): `start` returns
successfully after `kill` was called, refuting the claim. -/
theorem C2_start_succeeds_after_kill :
    (((mkAnvilManager 8545).spawnPhase anvilChild2).kill false).2 = []
    ∧ (((mkAnvilManager 8545).spawnPhase anvilChild2).kill false).1
        = (mkAnvilManager 8545).spawnPhase anvilChild2
    ∧ ((((mkAnvilManager 8545).spawnPhase anvilChild2).kill false).1).startProbeLoop
        [true] = true := by
  decide

/-- C2 amended: `kill()` invoked while `start`'s probe loop is polling
does not affect the loop at all — `kill` is a no-op on the state (the
spawned child lives in `this.process` while `kill` checks `this.proc`)
and the loop consults no kill state, its outcome being the same for any
two manager states — so `start` reports success whenever a probe within
the attempt budget observes an OK response, kill notwithstanding. -/
theorem C2_probe_loop_ignores_kill (port : Nat) (child : ProcHandle)
    (probes : List Bool) (hhead : probes.headD false = true) :
    (((mkAnvilManager port).spawnPhase child).kill false).1
        = (mkAnvilManager port).spawnPhase child
    ∧ (((mkAnvilManager port).spawnPhase child).kill false).2 = []
    ∧ (∀ m m' : AnvilManager, m.startProbeLoop probes = m'.startProbeLoop probes)
    ∧ ((((mkAnvilManager port).spawnPhase child).kill false).1).startProbeLoop probes
        = true := by
  refine ⟨rfl, rfl, fun m m' => rfl, ?_⟩
  cases probes with
  | nil => simp [List.headD] at hhead
  | cons b t =>
    simp [List.headD] at hhead
    subst hhead
    rfl

/-- C2 amended witness: at port 7777 with a live child and a
first-probe success, kill changes nothing and the probe loop still
reports success. -/
theorem C2_probe_loop_ignores_kill_witness :
    (([true, false] : List Bool).headD false = true)
    ∧ ((((mkAnvilManager 7777).spawnPhase { pid := 3, killed := false }).kill false).1
          = (mkAnvilManager 7777).spawnPhase { pid := 3, killed := false }
      ∧ (((mkAnvilManager 7777).spawnPhase { pid := 3, killed := false }).kill false).2 = []
      ∧ (∀ m m' : AnvilManager,
          m.startProbeLoop [true, false] = m'.startProbeLoop [true, false])
      ∧ ((((mkAnvilManager 7777).spawnPhase { pid := 3, killed := false }).kill
            false).1).startProbeLoop [true, false] = true) :=
  ⟨rfl, C2_probe_loop_ignores_kill 7777 { pid := 3, killed := false } [true, false] rfl⟩

/-- The reconstructed original transaction in the C4 runs. -/
def C4orig : OriginalTx :=
  { toAddr := some "0xcontract", value := "1000", data := "0xdeadbeef"
    gasLimit := "21000", gasPrice := "5" }

/-- An overrides object carrying `from` and `nonce` keys. -/
def C4mods : TxFields := { fromAddr := some "0xattacker", nonce := some 5 }

/-- C4 counterexample: when the overrides object contains `from` or
`nonce` keys, the spread `...modifications` carries them into the
submitted transaction object — they ARE taken from the overrides,
refuting the claim that sender and nonce are never taken from the
overrides. -/
theorem C4_overrides_carry_from_and_nonce :
    (modifiedTx C4orig C4mods).fromAddr = some "0xattacker"
    ∧ (modifiedTx C4orig C4mods).nonce = some 5
    ∧ ¬ ((modifiedTx C4orig C4mods).fromAddr = none ∧ (modifiedTx C4orig C4mods).nonce = none) := by
  decide

/-- C4 amended: the submitted transaction is the reconstructed fields
`{to, value, data, gasLimit, gasPrice}` merged with the overrides,
override values winning for every key the overrides carry — including
`from` and `nonce`, which are passed through to submission.  Only when
the overrides omit `from` and `nonce` does the submitted object leave
them unset, so that the executing funded test account controls sender
and nonce.  Supplying override `{value: "0"}` yields value "0" with all
other fields equal to the reconstructed originals and no `from`/`nonce`
keys. -/
theorem C4_override_merge (o : OriginalTx) (m : TxFields)
    (hf : m.fromAddr = none) (hn : m.nonce = none) :
    (modifiedTx o m).fromAddr = none
    ∧ (modifiedTx o m).nonce = none
    ∧ (∀ v, (modifiedTx o { m with value := some v }).value = v)
    ∧ modifiedTx o ({ value := some "0" } : TxFields) =
        { toAddr := o.toAddr, value := "0", data := o.data
          gasLimit := o.gasLimit, gasPrice := o.gasPrice
          fromAddr := none, nonce := none } := by
  refine ⟨?_, ?_, fun v => rfl, rfl⟩
  · simp [modifiedTx, hf]
  · simp [modifiedTx, hn]

/-- C4 amended witness: an empty overrides object leaves sender and
nonce unset, and the `{value: "0"}` override scenario holds on the
concrete reconstructed transaction. -/
theorem C4_override_merge_witness :
    (({} : TxFields).fromAddr = none ∧ ({} : TxFields).nonce = none)
    ∧ ((modifiedTx C4orig {}).fromAddr = none
      ∧ (modifiedTx C4orig {}).nonce = none
      ∧ (∀ v, (modifiedTx C4orig { ({} : TxFields) with value := some v }).value = v)
      ∧ modifiedTx C4orig ({ value := some "0" } : TxFields) =
          { toAddr := C4orig.toAddr, value := "0", data := C4orig.data
            gasLimit := C4orig.gasLimit, gasPrice := C4orig.gasPrice
            fromAddr := none, nonce := none }) :=
  ⟨⟨rfl, rfl⟩, C4_override_merge C4orig {} rfl rfl⟩

end ForkTrace
